import Mathlib

/-!
Verification development for the generic P&L calculation engine and
project-type configuration registry of the matrix-nova repository.

The engine (src/calculations.js, first copy, the one the specification
cites) and the registry (src/config.js) are embedded shallowly:

* JavaScript numbers are modelled as exact rationals (ℚ); the source
  performs only field arithmetic, `Math.ceil`, and comparisons, all of
  which are mirrored exactly over ℚ.
* A JavaScript value stored in a form-value bag is either a number, a
  string (represented by its `parseFloat` result: `none` models a string
  that parses to NaN; strings are assumed nonempty), or a boolean.
* `Infinity` sentinels (payback / break-even "never") are modelled as
  `none` in an `Option`, keeping them distinguishable from every finite
  value.
* Value bags and the registry's custom-type collection are association
  lists looked up by first match, mirroring JavaScript object/Map key
  semantics (keys are unique in every state the source constructs).
-/

/-- A JavaScript value held in a form-value bag.  `str p` carries the
`parseFloat` result of the (nonempty) string: `none` models NaN. -/
inductive JSValue where
  | num (q : ℚ)
  | str (p : Option ℚ)
  | boolV (b : Bool)
  deriving DecidableEq

/-- A form-value bag: mapping from field id to raw value
(`data` in the source). -/
abbrev ValueBag := List (String × JSValue)

/-- First-match association-list lookup, mirroring JavaScript property
access on objects whose keys are unique. -/
def lookupKey {α : Type} : List (String × α) → String → Option α
  | [], _ => none
  | (k, v) :: rest, key => if key = k then some v else lookupKey rest key

/-- JavaScript truthiness of a raw bag value (numbers are truthy iff
nonzero; nonempty strings are truthy; booleans are themselves). -/
def truthy : JSValue → Bool
  | JSValue.num q => decide (q ≠ 0)
  | JSValue.str _ => true
  | JSValue.boolV b => b

/-- Truthiness test `data.key` used by the source for guards such as
`data.courts` and `data.eventsPerYear`. -/
def bagHasTruthy (bag : ValueBag) (key : String) : Bool :=
  match lookupKey bag key with
  | some v => truthy v
  | none => false

/-- src/calculations.js getValue (lines 361-367): if the key is present,
a number is returned as is, and any other value goes through
`parseFloat(value) || defaultValue` — so a string parsing to a nonzero
number yields that number, while a string parsing to 0 or NaN (and any
boolean, since `parseFloat` of a boolean is NaN) falls back to the
supplied default.  An absent key falls back to the default. -/
def getValue (bag : ValueBag) (key : String) (defaultValue : ℚ) : ℚ :=
  match lookupKey bag key with
  | none => defaultValue
  | some (JSValue.num q) => q
  | some (JSValue.str (some q)) => if q = 0 then defaultValue else q
  | some (JSValue.str none) => defaultValue
  | some (JSValue.boolV _) => defaultValue

/-- One configurable input field of a schema category.  Display-only
attributes of the source schema (name, min, max, unit, group,
description) are omitted: no embedded computation reads them.
`ftype` is the source's `type` attribute. -/
structure FieldSpec where
  id : String
  ftype : String
  defaultValue : ℚ
  deriving DecidableEq

/-- The four field categories of a project-type schema. -/
structure Categories where
  investment : List FieldSpec
  revenue : List FieldSpec
  operating : List FieldSpec
  staffing : List FieldSpec
  deriving DecidableEq

/-- A project-type schema (id, display name, categories).  Display-only
attributes (description, icon, businessType) are omitted. -/
structure ProjectType where
  id : String
  name : String
  categories : Categories
  deriving DecidableEq

/-- Substring test mirroring JavaScript String.includes for a nonempty
pattern: the pattern occurs iff splitting on it yields at least two
parts. -/
def containsStr (s pat : String) : Bool :=
  decide (2 ≤ (s.splitOn pat).length)

/-- `field.id.replace(/Sal$/, '')`: strip one trailing "Sal". -/
def stripSal (s : String) : String :=
  if s.endsWith "Sal" then s.dropRight 3 else s

/-- Padel-specific revenue (calculatePadelRevenue, lines 72-87).  Note
the hardcoded fallback defaults: 0 for hours, rates and utilizations,
1 for courts, 7 for days, 52 for weeks — independent of the schema's
declared field defaults. -/
def calculatePadelRevenue (bag : ValueBag) : ℚ :=
  let peakHours := getValue bag "peakHours" 0
  let peakRate := getValue bag "peakRate" 0
  let peakUtil := getValue bag "peakUtil" 0 / 100
  let offHours := getValue bag "offHours" 0
  let offRate := getValue bag "offRate" 0
  let offUtil := getValue bag "offUtil" 0 / 100
  let courts := getValue bag "courts" 1
  let days := getValue bag "days" 7
  let weeks := getValue bag "weeks" 52
  let peakRevenue := peakHours * peakRate * days * weeks * courts * peakUtil
  let offRevenue := offHours * offRate * days * weeks * courts * offUtil
  peakRevenue + offRevenue

/-- The membership-tier sum of the gym revenue formula (lines 91-95):
weekly, monthly and annual membership revenue. -/
def gymTiersTotal (bag : ValueBag) : ℚ :=
  getValue bag "weekMembers" 0 * getValue bag "weekFee" 0 * 52 +
    getValue bag "monthMembers" 0 * getValue bag "monthFee" 0 * 12 +
    getValue bag "annualMembers" 0 * getValue bag "annualFee" 0

/-- The twelve month indices of the gym ramp-up loop
(`for (let month = 1; month <= 12; month++)`). -/
def gymMonths : List ℕ := [1, 2, 3, 4, 5, 6, 7, 8, 9, 10, 11, 12]

/-- The ramp-up accumulation loop of the gym formula (lines 105-111):
month `m` contributes `monthlyBase * rampEffect` when
`m <= rampDuration`, else `monthlyBase`. -/
def gymAdjustedRevenue (monthlyBase rampEffect rampDuration : ℚ) : ℚ :=
  (gymMonths.map
    (fun month =>
      if (month : ℚ) ≤ rampDuration then monthlyBase * rampEffect else monthlyBase)).sum

/-- Truthiness of `this.getValue(data, 'rampUp', false)` (line 98): a
number in the bag enables ramp-up iff nonzero; a string enables it iff
it parses to a nonzero number; a boolean never enables it (in the
source, `parseFloat` of a boolean is NaN, so the default `false` is
returned); an absent key leaves ramp-up off. -/
def gymRampEnabled (bag : ValueBag) : Bool :=
  match lookupKey bag "rampUp" with
  | some (JSValue.num q) => decide (q ≠ 0)
  | some (JSValue.str (some q)) => decide (q ≠ 0)
  | some (JSValue.str none) => false
  | some (JSValue.boolV _) => false
  | none => false

/-- Gym-specific revenue (calculateGymRevenue, lines 90-117). -/
def calculateGymRevenue (bag : ValueBag) : ℚ :=
  let totalRevenue := gymTiersTotal bag
  if gymRampEnabled bag then
    let rampDuration := getValue bag "rampDuration" 0
    let rampEffect := getValue bag "rampEffect" 100 / 100
    gymAdjustedRevenue (totalRevenue / 12) rampEffect rampDuration
  else
    totalRevenue

/-- Generic revenue for custom project types (lines 120-130): sum every
currency field whose lowercased id has "revenue" as a substring. -/
def calculateGenericRevenue (config : List FieldSpec) (bag : ValueBag) : ℚ :=
  config.foldl
    (fun acc f =>
      if f.ftype == "currency" && containsStr f.id.toLower "revenue" then
        acc + getValue bag f.id f.defaultValue
      else acc)
    0

/-- CapEx Investment revenue / first-year benefit (calculateCapExRevenue,
src/unnamed/part_001 lines 274-296). -/
def calculateCapExRevenue (bag : ValueBag) : ℚ :=
  let costSavings := getValue bag "costSavings" 0
  let revenueIncrease := getValue bag "revenueIncrease" 0
  let implementationTime := getValue bag "implementationTime" 6
  let rampUpPeriod := getValue bag "rampUpPeriod" 3
  let totalImplementationTime := implementationTime + rampUpPeriod
  if totalImplementationTime ≥ 12 then 0
  else
    let monthsWithBenefits := 12 - totalImplementationTime
    let rampUpFactor : ℚ := if rampUpPeriod > 0 then 1 / 2 else 1
    (costSavings + revenueIncrease) * (monthsWithBenefits / 12) * rampUpFactor

/-- Operating costs (lines 148-158): sum of every currency-typed
operating field, each read with `field.defaultValue || 0` as fallback
(for the numeric defaults of the source this equals `defaultValue`). -/
def calculateOperatingCosts (operatingConfig : List FieldSpec) (bag : ValueBag) : ℚ :=
  operatingConfig.foldl
    (fun acc f =>
      if f.ftype == "currency" then acc + getValue bag f.id f.defaultValue else acc)
    0

/-- Replace the count component of a staffing role entry. -/
def setRoleCount (roles : List (String × ℚ × ℚ)) (key : String) (v : ℚ) :
    List (String × ℚ × ℚ) :=
  roles.map (fun p => if p.1 = key then (p.1, v, p.2.2) else p)

/-- Replace the salary component of a staffing role entry. -/
def setRoleSalary (roles : List (String × ℚ × ℚ)) (key : String) (v : ℚ) :
    List (String × ℚ × ℚ) :=
  roles.map (fun p => if p.1 = key then (p.1, p.2.1, v) else p)

/-- One iteration of the staffing grouping loop (lines 167-179): ensure
the role keyed by the id without its "Sal" suffix exists (insertion
order preserved, as in a JavaScript Map), then record the value as the
role's salary (ids ending in "Sal" or containing "Salary") or count
(number-typed fields). -/
def staffingStep (bag : ValueBag) (roles : List (String × ℚ × ℚ)) (f : FieldSpec) :
    List (String × ℚ × ℚ) :=
  let baseName := stripSal f.id
  let roles2 :=
    if (lookupKey roles baseName).isSome then roles else roles ++ [(baseName, 0, 0)]
  if f.id.endsWith "Sal" || containsStr f.id "Salary" then
    setRoleSalary roles2 baseName (getValue bag f.id f.defaultValue)
  else if f.ftype == "number" then
    setRoleCount roles2 baseName (getValue bag f.id f.defaultValue)
  else roles2

/-- Staffing costs (lines 161-187): group fields into roles, then sum
count × salary over the roles in insertion order. -/
def calculateStaffingCosts (staffingConfig : List FieldSpec) (bag : ValueBag) : ℚ :=
  (staffingConfig.foldl (staffingStep bag) []).foldl
    (fun acc r => acc + r.2.1 * r.2.2) 0

/-- Total investment (lines 190-207): sum of currency-typed investment
fields; `courtCost` is multiplied by the `courts` count when a truthy
`courts` value is present in the bag. -/
def calculateInvestment (pt : ProjectType) (bag : ValueBag) : ℚ :=
  pt.categories.investment.foldl
    (fun acc f =>
      if f.ftype == "currency" then
        let v := getValue bag f.id f.defaultValue
        if f.id == "courtCost" && bagHasTruthy bag "courts" then
          acc + v * getValue bag "courts" 1
        else acc + v
      else acc)
    0

/-- Revenue result structure `{annual, monthly, daily}`. -/
structure RevenueStruct where
  annual : ℚ
  monthly : ℚ
  daily : ℚ
  deriving DecidableEq

/-- Costs result structure `{annual, monthly, operating, staffing}`. -/
structure CostsStruct where
  annual : ℚ
  monthly : ℚ
  operating : ℚ
  staffing : ℚ
  deriving DecidableEq

/-- ROI result.  The source uses `Infinity` for the "never" payback and
break-even sentinels; they are modelled as `none`.  The extra
`investment`/`annualProfit` echo fields of the non-sentinel branch are
omitted. -/
structure ROIResult where
  paybackYears : Option ℤ
  roiPercentage : ℚ
  breakEvenMonth : Option ℤ
  deriving DecidableEq

/-- ROI metrics (calculateROI, lines 210-233). -/
def calculateROI (investment annualProfit : ℚ) : ROIResult :=
  if investment ≤ 0 then
    ⟨none, 0, none⟩
  else
    ⟨(if annualProfit > 0 then some ⌈investment / annualProfit⌉ else none),
      annualProfit / investment * 100,
      (if annualProfit > 0 then some ⌈investment / (annualProfit / 12)⌉ else none)⟩

/-- Total revenue with per-business dispatch (calculateRevenue, lines
50-69): padel and gym use their bespoke formulas, everything else the
generic summation. -/
def calculateRevenue (pt : ProjectType) (bag : ValueBag) : RevenueStruct :=
  let annualRevenue :=
    if pt.id == "padel" then calculatePadelRevenue bag
    else if pt.id == "gym" then calculateGymRevenue bag
    else calculateGenericRevenue pt.categories.revenue bag
  ⟨annualRevenue, annualRevenue / 12, annualRevenue / 365⟩

/-- Total costs (calculateCosts, lines 133-145). -/
def calculateCosts (pt : ProjectType) (bag : ValueBag) : CostsStruct :=
  let operatingCosts := calculateOperatingCosts pt.categories.operating bag
  let staffingCosts := calculateStaffingCosts pt.categories.staffing bag
  ⟨operatingCosts + staffingCosts, (operatingCosts + staffingCosts) / 12,
    operatingCosts, staffingCosts⟩

/-- The engine's calculation result.  The display-only `breakdown`
subobject is omitted; every financial figure is kept. -/
structure CalculationResult where
  typeId : String
  typeName : String
  revenue : RevenueStruct
  costs : CostsStruct
  investment : ℚ
  profit : ℚ
  monthlyProfit : ℚ
  roi : ROIResult
  deriving DecidableEq

/-- P&L calculation (calculateProjectPL, lines 23-47).  The source
resolves the schema from the registry by id and throws for an unknown
id; here the resolved schema is passed directly, as in the
specification's `calculate(schema, valueBag)` contract. -/
def calculateProjectPL (pt : ProjectType) (bag : ValueBag) : CalculationResult :=
  let revenue := calculateRevenue pt bag
  let costs := calculateCosts pt bag
  let investment := calculateInvestment pt bag
  let profit := revenue.annual - costs.annual
  ⟨pt.id, pt.name, revenue, costs, investment, profit, profit / 12,
    calculateROI investment profit⟩

/-- Results-cache lookup (getCalculation, lines 17-20):
`this.calculations.get(typeId) || null`. -/
def getCalculation (calculations : List (String × CalculationResult))
    (typeId : String) : Option CalculationResult :=
  lookupKey calculations typeId

/-- The optional revenue/cost multipliers of calculateCombinedPL. -/
structure Adjustments where
  revenue : Option ℚ
  costs : Option ℚ
  deriving DecidableEq

/-- `x || 1` for an optional multiplier: an absent or zero value (0 is
falsy) yields 1. -/
def jsOrOne : Option ℚ → ℚ
  | none => 1
  | some q => if q = 0 then 1 else q

/-- One per-project entry of the combined result. -/
structure CombinedProject where
  typeId : String
  typeName : String
  revenue : ℚ
  costs : ℚ
  profit : ℚ
  investment : ℚ
  deriving DecidableEq

/-- Totals of the combined result; `paybackYears` is `none` for the
`Infinity` sentinel. -/
structure CombinedTotals where
  revenue : ℚ
  costs : ℚ
  profit : ℚ
  investment : ℚ
  roi : ℚ
  paybackYears : Option ℤ
  deriving DecidableEq

/-- Combined multi-project result. -/
structure CombinedResult where
  projects : List CombinedProject
  totals : CombinedTotals
  deriving DecidableEq

/-- One iteration of the calculateCombinedPL loop (lines 376-399): an id
with no cached calculation leaves the accumulator untouched; otherwise
the adjusted revenue/costs are appended and accumulated.  The
accumulator is (projects, totalRevenue, totalCosts, totalInvestment). -/
def combinedStep (calculations : List (String × CalculationResult))
    (adjustments : Adjustments)
    (acc : List CombinedProject × ℚ × ℚ × ℚ) (typeId : String) :
    List CombinedProject × ℚ × ℚ × ℚ :=
  match getCalculation calculations typeId with
  | none => acc
  | some c =>
    let revAdjust := jsOrOne adjustments.revenue
    let costAdjust := jsOrOne adjustments.costs
    let adjustedRevenue := c.revenue.annual * revAdjust
    let adjustedCosts := c.costs.annual * costAdjust
    (acc.1 ++ [⟨typeId, c.typeName, adjustedRevenue, adjustedCosts,
        adjustedRevenue - adjustedCosts, c.investment⟩],
      acc.2.1 + adjustedRevenue, acc.2.2.1 + adjustedCosts,
      acc.2.2.2 + c.investment)

/-- Combined P&L over several project types (calculateCombinedPL, lines
370-412). -/
def calculateCombinedPL (calculations : List (String × CalculationResult))
    (projectTypeIds : List String) (adjustments : Adjustments) : CombinedResult :=
  let acc := projectTypeIds.foldl (combinedStep calculations adjustments) ([], 0, 0, 0)
  ⟨acc.1,
    ⟨acc.2.1, acc.2.2.1, acc.2.1 - acc.2.2.1, acc.2.2.2,
      (if acc.2.2.2 > 0 then (acc.2.1 - acc.2.2.1) / acc.2.2.2 * 100 else 0),
      (if acc.2.1 - acc.2.2.1 > 0 then some ⌈acc.2.2.2 / (acc.2.1 - acc.2.2.1)⌉
        else none)⟩⟩

/-- Built-in padel template (src/config.js lines 132-178), ids, types
and default values transcribed per category. -/
def padelType : ProjectType :=
  ⟨"padel", "Padel Club",
    ⟨[⟨"ground", "currency", 50000⟩, ⟨"structure", "currency", 120000⟩,
        ⟨"courts", "number", 3⟩, ⟨"courtCost", "currency", 18000⟩,
        ⟨"amenities", "currency", 20000⟩],
      [⟨"peakHours", "number", 4⟩, ⟨"peakRate", "currency", 40⟩,
        ⟨"peakUtil", "percentage", 70⟩, ⟨"offHours", "number", 2⟩,
        ⟨"offRate", "currency", 25⟩, ⟨"offUtil", "percentage", 35⟩,
        ⟨"days", "number", 7⟩, ⟨"weeks", "number", 52⟩],
      [⟨"utilities", "currency", 5000⟩, ⟨"insurance", "currency", 2500⟩,
        ⟨"maintenance", "currency", 3000⟩, ⟨"marketing", "currency", 4000⟩,
        ⟨"admin", "currency", 3500⟩, ⟨"cleaning", "currency", 2000⟩,
        ⟨"misc", "currency", 1000⟩],
      [⟨"ftMgr", "number", 1⟩, ⟨"ftMgrSal", "currency", 35000⟩,
        ⟨"ftRec", "number", 1⟩, ⟨"ftRecSal", "currency", 21000⟩,
        ⟨"ftCoach", "number", 1⟩, ⟨"ftCoachSal", "currency", 25000⟩,
        ⟨"ptCoach", "number", 1⟩, ⟨"ptCoachSal", "currency", 12000⟩,
        ⟨"addStaff", "number", 0⟩, ⟨"addStaffSal", "currency", 0⟩]⟩⟩

/-- Built-in gym template (src/config.js lines 180-221).  The boolean
default `false` of rampUp is transcribed as 0 (it coerces to 0 in every
numeric context the embedded computations reach). -/
def gymType : ProjectType :=
  ⟨"gym", "Gym/Fitness Center",
    ⟨[⟨"equipment", "currency", 35000⟩, ⟨"flooring", "currency", 8000⟩,
        ⟨"amenities", "currency", 6000⟩],
      [⟨"weekMembers", "number", 60⟩, ⟨"weekFee", "currency", 20⟩,
        ⟨"monthMembers", "number", 30⟩, ⟨"monthFee", "currency", 50⟩,
        ⟨"annualMembers", "number", 12⟩, ⟨"annualFee", "currency", 450⟩,
        ⟨"rampUp", "boolean", 0⟩, ⟨"rampDuration", "number", 3⟩,
        ⟨"rampEffect", "percentage", 40⟩],
      [⟨"utilities", "currency", 2500⟩, ⟨"insurance", "currency", 1700⟩,
        ⟨"maintenance", "currency", 2000⟩, ⟨"marketing", "currency", 2500⟩,
        ⟨"admin", "currency", 2100⟩, ⟨"cleaning", "currency", 1200⟩,
        ⟨"misc", "currency", 800⟩],
      [⟨"ftTrainer", "number", 1⟩, ⟨"ftTrainerSal", "currency", 22000⟩,
        ⟨"ptTrainer", "number", 1⟩, ⟨"ptTrainerSal", "currency", 9000⟩,
        ⟨"addStaff", "number", 0⟩, ⟨"addStaffSal", "currency", 0⟩]⟩⟩

/-- Built-in conference template (src/config.js lines 224-258). -/
def conferenceType : ProjectType :=
  ⟨"conference", "Conference/Event",
    ⟨[⟨"venue", "currency", 15000⟩, ⟨"equipment", "currency", 8000⟩,
        ⟨"technology", "currency", 5000⟩],
      [⟨"capacity", "number", 200⟩, ⟨"ticketPrice", "currency", 150⟩,
        ⟨"occupancyRate", "percentage", 80⟩, ⟨"eventsPerYear", "number", 12⟩,
        ⟨"sponsorship", "currency", 10000⟩],
      [⟨"venueRental", "currency", 24000⟩, ⟨"catering", "currency", 2000⟩,
        ⟨"marketing", "currency", 8000⟩, ⟨"insurance", "currency", 2000⟩,
        ⟨"materials", "currency", 500⟩],
      [⟨"eventManager", "number", 1⟩, ⟨"eventManagerSal", "currency", 40000⟩,
        ⟨"speakers", "currency", 3000⟩, ⟨"support", "number", 3⟩,
        ⟨"supportSal", "currency", 800⟩]⟩⟩

/-- Built-in saas template (src/config.js lines 260-293). -/
def saasType : ProjectType :=
  ⟨"saas", "SaaS Platform",
    ⟨[⟨"development", "currency", 50000⟩, ⟨"infrastructure", "currency", 10000⟩,
        ⟨"licenses", "currency", 5000⟩],
      [⟨"basicUsers", "number", 100⟩, ⟨"basicPrice", "currency", 29⟩,
        ⟨"proUsers", "number", 50⟩, ⟨"proPrice", "currency", 79⟩,
        ⟨"churnRate", "percentage", 5⟩, ⟨"growthRate", "percentage", 10⟩],
      [⟨"hosting", "currency", 2000⟩, ⟨"support", "currency", 15000⟩,
        ⟨"marketing", "currency", 20000⟩, ⟨"maintenance", "currency", 8000⟩],
      [⟨"developers", "number", 2⟩, ⟨"developerSal", "currency", 60000⟩,
        ⟨"customer", "number", 1⟩, ⟨"customerSal", "currency", 45000⟩]⟩⟩

/-- Built-in ecommerce template (src/config.js lines 295-327). -/
def ecommerceType : ProjectType :=
  ⟨"ecommerce", "E-commerce Store",
    ⟨[⟨"website", "currency", 15000⟩, ⟨"inventory", "currency", 30000⟩,
        ⟨"warehouse", "currency", 10000⟩],
      [⟨"avgOrderValue", "currency", 75⟩, ⟨"ordersPerMonth", "number", 500⟩,
        ⟨"grossMargin", "percentage", 40⟩, ⟨"returnRate", "percentage", 8⟩],
      [⟨"hosting", "currency", 2000⟩, ⟨"shipping", "currency", 8000⟩,
        ⟨"payment", "currency", 3000⟩, ⟨"marketing", "currency", 15000⟩,
        ⟨"warehouse", "currency", 12000⟩],
      [⟨"manager", "number", 1⟩, ⟨"managerSal", "currency", 35000⟩,
        ⟨"fulfillment", "number", 2⟩, ⟨"fulfillmentSal", "currency", 25000⟩]⟩⟩

/-- Built-in consulting template (src/config.js lines 329-361). -/
def consultingType : ProjectType :=
  ⟨"consulting", "Consulting Services",
    ⟨[⟨"office", "currency", 8000⟩, ⟨"equipment", "currency", 5000⟩,
        ⟨"certification", "currency", 3000⟩],
      [⟨"hourlyRate", "currency", 120⟩, ⟨"billableHours", "number", 30⟩,
        ⟨"utilizationRate", "percentage", 75⟩, ⟨"weeksPerYear", "number", 48⟩],
      [⟨"office", "currency", 8000⟩, ⟨"insurance", "currency", 2500⟩,
        ⟨"marketing", "currency", 5000⟩, ⟨"professional", "currency", 3000⟩,
        ⟨"equipment", "currency", 1000⟩],
      [⟨"consultant", "number", 1⟩, ⟨"consultantSal", "currency", 70000⟩,
        ⟨"junior", "number", 1⟩, ⟨"juniorSal", "currency", 40000⟩]⟩⟩

/-- Built-in generic template (src/config.js lines 364-394). -/
def genericType : ProjectType :=
  ⟨"generic", "Generic Business",
    ⟨[⟨"equipment", "currency", 0⟩, ⟨"infrastructure", "currency", 0⟩,
        ⟨"other", "currency", 0⟩],
      [⟨"primaryRevenue", "currency", 0⟩, ⟨"secondaryRevenue", "currency", 0⟩],
      [⟨"utilities", "currency", 0⟩, ⟨"insurance", "currency", 0⟩,
        ⟨"maintenance", "currency", 0⟩, ⟨"marketing", "currency", 0⟩,
        ⟨"other", "currency", 0⟩],
      [⟨"management", "number", 0⟩, ⟨"managementSal", "currency", 0⟩,
        ⟨"operational", "number", 0⟩, ⟨"operationalSal", "currency", 0⟩]⟩⟩

/-- The four category arrays of a raw (possibly invalid) configuration:
`none` models an absent or non-array member. -/
structure RawCategories where
  investment : Option (List FieldSpec)
  revenue : Option (List FieldSpec)
  operating : Option (List FieldSpec)
  staffing : Option (List FieldSpec)
  deriving DecidableEq

/-- A raw project-type configuration as handled by the registry: each
member is `none` when absent or of the wrong runtime type (a falsy or
nonstring id/name is modelled as `none` or the empty string). -/
structure RawConfig where
  id : Option String
  name : Option String
  categories : Option RawCategories
  deriving DecidableEq

/-- Truthiness of an optional string member (`!config.id || typeof
config.id !== 'string'` rejects absent, nonstring and empty values). -/
def validStr : Option String → Bool
  | some s => decide (s ≠ "")
  | none => false

/-- Schema validation (validateProjectTypeConfig, src/config.js lines
490-508): a valid id and name, a categories object, and all four
category arrays present.  The source's distinct error messages are
collapsed into a boolean verdict. -/
def validateProjectTypeConfig (config : RawConfig) : Bool :=
  validStr config.id && validStr config.name &&
    (match config.categories with
      | some cats =>
        cats.investment.isSome && cats.revenue.isSome &&
          cats.operating.isSome && cats.staffing.isSome
      | none => false)

/-- View a full schema as a raw configuration. -/
def ProjectType.toRaw (pt : ProjectType) : RawConfig :=
  ⟨some pt.id, some pt.name,
    some ⟨some pt.categories.investment, some pt.categories.revenue,
      some pt.categories.operating, some pt.categories.staffing⟩⟩

/-- DEFAULT_PROJECT_TYPES (src/config.js lines 131-395): the seven
built-in templates keyed by id, in declaration order. -/
def defaultProjectTypes : List (String × RawConfig) :=
  [("padel", padelType.toRaw), ("gym", gymType.toRaw),
    ("conference", conferenceType.toRaw), ("saas", saasType.toRaw),
    ("ecommerce", ecommerceType.toRaw), ("consulting", consultingType.toRaw),
    ("generic", genericType.toRaw)]

/-- `DEFAULT_PROJECT_TYPES[id]` truthiness. -/
def isDefaultId (id : String) : Bool :=
  (lookupKey defaultProjectTypes id).isSome

/-- The registry's mutable state: the user-defined (custom) templates,
keyed by id. -/
abbrev RegistryState := List (String × RawConfig)

/-- Failures raised by the registry's mutating operations. -/
inductive RegError where
  | reservedId
  | invalidConfig
  | templateNotFound
  deriving DecidableEq

/-- Replace the value under an existing key in place, else append —
JavaScript object property assignment. -/
def updateKey {α : Type} : List (String × α) → String → α → List (String × α)
  | [], k, v => [(k, v)]
  | (k2, v2) :: rest, k, v =>
    if k2 = k then (k, v) :: rest else (k2, v2) :: updateKey rest k v

/-- Remove a key — JavaScript `delete obj[id]` (keys are unique in
every state the registry constructs). -/
def eraseKey {α : Type} : List (String × α) → String → List (String × α)
  | [], _ => []
  | (k2, v2) :: rest, k =>
    if k2 = k then eraseKey rest k else (k2, v2) :: eraseKey rest k

/-- The merged template map (getAllProjectTypes, src/config.js lines
424-426): `{...DEFAULT_PROJECT_TYPES, ...this.customTypes}` as a lookup
function — a custom entry, when present, wins over the built-in one. -/
def getAllProjectTypes (st : RegistryState) (id : String) : Option RawConfig :=
  match lookupKey st id with
  | some c => some c
  | none => lookupKey defaultProjectTypes id

/-- Registry lookup (getProjectType, lines 461-464):
`getAllProjectTypes()[id] || null`. -/
def getProjectType (st : RegistryState) (id : String) : Option RawConfig :=
  getAllProjectTypes st id

/-- Add or update a custom project type (setProjectType, lines 467-477):
reject a built-in id, then validate, then store — no mutation happens on
either failure (the returned error carries no state). -/
def setProjectType (st : RegistryState) (id : String) (config : RawConfig) :
    Except RegError RegistryState :=
  if isDefaultId id then Except.error RegError.reservedId
  else if validateProjectTypeConfig config then Except.ok (updateKey st id config)
  else Except.error RegError.invalidConfig

/-- Delete a custom project type (deleteProjectType, lines 480-487):
built-ins cannot be deleted. -/
def deleteProjectType (st : RegistryState) (id : String) :
    Except RegError RegistryState :=
  if isDefaultId id then Except.error RegError.reservedId
  else Except.ok (eraseKey st id)

/-- Clone an existing template under a new id/name (createFromTemplate,
lines 511-524).  The source's deep clone and description rewrite are
immaterial in a pure model; registration goes through setProjectType. -/
def createFromTemplate (st : RegistryState) (templateId newId newName : String) :
    Except RegError RegistryState :=
  match getProjectType st templateId with
  | none => Except.error RegError.templateNotFound
  | some template =>
    setProjectType st newId { template with id := some newId, name := some newName }

/-- Import a configuration (importConfiguration, src/config.js lines
536-551).  The source validates each entry of `configData.custom` and
logs the ids that fail (returned here as the second component), but its
`continue` only ends a loop iteration that does nothing else: after the
loop the WHOLE `configData.custom` object — invalid entries included —
replaces `this.customTypes`. -/
def importConfiguration (_st : RegistryState)
    (custom : List (String × RawConfig)) : RegistryState × List String :=
  (custom, (custom.filter (fun p => !validateProjectTypeConfig p.2)).map (fun p => p.1))

/-- Registry states reachable from a fresh registry by successful
setProjectType, deleteProjectType and createFromTemplate calls (failed
calls leave the state unchanged). -/
inductive ReachableState : RegistryState → Prop where
  | init : ReachableState []
  | set (st : RegistryState) (id : String) (config : RawConfig)
      (st2 : RegistryState) : ReachableState st →
      setProjectType st id config = Except.ok st2 → ReachableState st2
  | del (st : RegistryState) (id : String) (st2 : RegistryState) :
      ReachableState st → deleteProjectType st id = Except.ok st2 →
      ReachableState st2
  | clone (st : RegistryState) (templateId newId newName : String)
      (st2 : RegistryState) : ReachableState st →
      createFromTemplate st templateId newId newName = Except.ok st2 →
      ReachableState st2

/-- No custom template sits under a built-in id. -/
def NoShadow (st : RegistryState) : Prop :=
  ∀ id, isDefaultId id = true → lookupKey st id = none

/-- The field declared under `key` in any of the schema's four
categories, in source declaration order. -/
def findDeclaredField (pt : ProjectType) (key : String) : Option FieldSpec :=
  (pt.categories.investment ++ pt.categories.revenue ++
      pt.categories.operating ++ pt.categories.staffing).find?
    (fun f => f.id == key)

/-- The claimed resolution of an unset field: the field's declared
defaultValue from the schema, or 0 if no field of that id is declared. -/
def declaredDefault (pt : ProjectType) (key : String) : ℚ :=
  match findDeclaredField pt key with
  | some f => f.defaultValue
  | none => 0

/-- Field lookup as the default-fallback claim describes it: a present
key resolves as in getValue, an unset key resolves to the schema's
declared default for that field. -/
def claimedGetValue (pt : ProjectType) (bag : ValueBag) (key : String) : ℚ :=
  match lookupKey bag key with
  | none => declaredDefault pt key
  | some (JSValue.num q) => q
  | some (JSValue.str (some q)) => if q = 0 then declaredDefault pt key else q
  | some (JSValue.str none) => declaredDefault pt key
  | some (JSValue.boolV _) => declaredDefault pt key

/-- The padel revenue formula under the claimed schema-default
resolution of every field it reads (stated from the claim's words, for
comparison with calculatePadelRevenue). -/
def claimedPadelRevenue (pt : ProjectType) (bag : ValueBag) : ℚ :=
  let peakHours := claimedGetValue pt bag "peakHours"
  let peakRate := claimedGetValue pt bag "peakRate"
  let peakUtil := claimedGetValue pt bag "peakUtil" / 100
  let offHours := claimedGetValue pt bag "offHours"
  let offRate := claimedGetValue pt bag "offRate"
  let offUtil := claimedGetValue pt bag "offUtil" / 100
  let courts := claimedGetValue pt bag "courts"
  let days := claimedGetValue pt bag "days"
  let weeks := claimedGetValue pt bag "weeks"
  peakHours * peakRate * days * weeks * courts * peakUtil +
    offHours * offRate * days * weeks * courts * offUtil

/-- The staffing grouping step with every field resolved to its
declared defaultValue — the resolution the default-fallback claim
asserts for an unset field. -/
def staffingStepDefaults (roles : List (String × ℚ × ℚ)) (f : FieldSpec) :
    List (String × ℚ × ℚ) :=
  let baseName := stripSal f.id
  let roles2 :=
    if (lookupKey roles baseName).isSome then roles else roles ++ [(baseName, 0, 0)]
  if f.id.endsWith "Sal" || containsStr f.id "Salary" then
    setRoleSalary roles2 baseName f.defaultValue
  else if f.ftype == "number" then
    setRoleCount roles2 baseName f.defaultValue
  else roles2

/-- The staffing cost sum computed entirely from the declared field
defaults. -/
def staffingCostsFromDefaults (staffingConfig : List FieldSpec) : ℚ :=
  (staffingConfig.foldl staffingStepDefaults []).foldl
    (fun acc r => acc + r.2.1 * r.2.2) 0

/-- A custom configuration lacking a name and categories: it fails
schema validation. -/
def invalidImportCfg : RawConfig := ⟨some "bad", none, none⟩

/-- A valid custom configuration keyed by the built-in id "gym". -/
def shadowGymCfg : RawConfig :=
  ⟨some "gym", some "Shadow Gym", some ⟨some [], some [], some [], some []⟩⟩

/-- A valid custom configuration under a fresh id. -/
def sampleCustomCfg : RawConfig :=
  ⟨some "mygym", some "My Gym", some ⟨some [], some [], some [], some []⟩⟩

/-- CapEx input with implementation 9 + ramp-up 3 = 12 months. -/
def capexBagA : ValueBag :=
  [("implementationTime", JSValue.num 9), ("rampUpPeriod", JSValue.num 3)]

/-- CapEx input with implementation 8 and the default ramp-up 3
(total 11 months). -/
def capexBagB : ValueBag :=
  [("costSavings", JSValue.num 120), ("implementationTime", JSValue.num 8)]

/-- Gym input with ramp-up enabled and a zero ramp duration. -/
def gymRampBag : ValueBag :=
  [("rampUp", JSValue.num 1), ("rampDuration", JSValue.num 0),
    ("weekMembers", JSValue.num 10), ("weekFee", JSValue.num 2)]

theorem getValue_nil (key : String) (d : ℚ) : getValue [] key d = d := rfl

/-- Summing a guarded fold equals summing the guarded sublist. -/
theorem foldl_if_sum (p : FieldSpec → Bool) (g : FieldSpec → ℚ) :
    ∀ (cfg : List FieldSpec) (a : ℚ),
      cfg.foldl (fun acc f => if p f then acc + g f else acc) a =
        a + ((cfg.filter p).map g).sum := by
  intro cfg
  induction cfg with
  | nil => intro a; simp
  | cons f rest ih =>
    intro a
    cases hp : p f
    · simp [List.filter_cons, hp, ih]
    · simp [List.filter_cons, hp, ih]
      ring

/-- On the empty bag the investment fold reduces to the sum of the
currency fields' declared defaults: the courtCost multiplication is
guarded by a truthy `courts` value, which an empty bag lacks. -/
theorem foldl_investment_empty :
    ∀ (cfg : List FieldSpec) (a : ℚ),
      cfg.foldl
        (fun acc f =>
          if f.ftype == "currency" then
            let v := getValue [] f.id f.defaultValue
            if f.id == "courtCost" && bagHasTruthy [] "courts" then
              acc + v * getValue [] "courts" 1
            else acc + v
          else acc) a =
      a + ((cfg.filter (fun f => f.ftype == "currency")).map
            (fun f => f.defaultValue)).sum := by
  have hstep : (fun (acc : ℚ) (f : FieldSpec) =>
      if f.ftype == "currency" then
        let v := getValue [] f.id f.defaultValue
        if f.id == "courtCost" && bagHasTruthy [] "courts" then
          acc + v * getValue [] "courts" 1
        else acc + v
      else acc) =
      fun (acc : ℚ) (f : FieldSpec) =>
        if f.ftype == "currency" then acc + f.defaultValue else acc := by
    funext acc f
    simp only [show bagHasTruthy [] "courts" = false from rfl, Bool.and_false,
      Bool.false_eq_true, if_false, getValue_nil]
  intro cfg a
  rw [hstep, foldl_if_sum]

/-- With a zero ramp duration every month contributes the full monthly
base. -/
theorem gymAdjusted_rampDuration_zero (monthlyBase rampEffect : ℚ) :
    gymAdjustedRevenue monthlyBase rampEffect 0 = 12 * monthlyBase := by
  norm_num [gymAdjustedRevenue, gymMonths]
  ring

/-- Lookup after an in-place update. -/
theorem lookupKey_update {α : Type} (l : List (String × α)) (k : String) (v : α)
    (d : String) :
    lookupKey (updateKey l k v) d = if d = k then some v else lookupKey l d := by
  induction l with
  | nil => simp [updateKey, lookupKey]
  | cons p rest ih =>
    obtain ⟨k2, v2⟩ := p
    by_cases h1 : k2 = k <;> by_cases h2 : d = k2 <;>
      simp_all [updateKey, lookupKey]

/-- Lookup after an erase. -/
theorem lookupKey_erase {α : Type} (l : List (String × α)) (k d : String) :
    lookupKey (eraseKey l k) d = if d = k then none else lookupKey l d := by
  induction l with
  | nil => simp [eraseKey, lookupKey]
  | cons p rest ih =>
    obtain ⟨k2, v2⟩ := p
    by_cases h1 : k2 = k <;> by_cases h2 : d = k2 <;>
      simp_all [eraseKey, lookupKey]

/-- A successful setProjectType call cannot put a custom template under
a built-in id. -/
theorem setProjectType_preserves (st st2 : RegistryState) (id : String)
    (config : RawConfig) (hok : setProjectType st id config = Except.ok st2)
    (h : NoShadow st) : NoShadow st2 := by
  rw [setProjectType] at hok
  by_cases h1 : isDefaultId id = true
  · rw [if_pos h1] at hok
    exact absurd hok (by simp)
  · rw [if_neg h1] at hok
    by_cases h2 : validateProjectTypeConfig config = true
    · rw [if_pos h2] at hok
      simp only [Except.ok.injEq] at hok
      subst hok
      intro d hd
      rw [lookupKey_update]
      by_cases h3 : d = id
      · exact absurd (h3 ▸ hd) h1
      · rw [if_neg h3]
        exact h d hd
    · rw [if_neg h2] at hok
      exact absurd hok (by simp)

/-- A successful deleteProjectType call cannot put a custom template
under a built-in id. -/
theorem deleteProjectType_preserves (st st2 : RegistryState) (id : String)
    (hok : deleteProjectType st id = Except.ok st2) (h : NoShadow st) :
    NoShadow st2 := by
  rw [deleteProjectType] at hok
  by_cases h1 : isDefaultId id = true
  · rw [if_pos h1] at hok
    exact absurd hok (by simp)
  · rw [if_neg h1] at hok
    simp only [Except.ok.injEq] at hok
    subst hok
    intro d hd
    rw [lookupKey_erase]
    by_cases h3 : d = id
    · rw [if_pos h3]
    · rw [if_neg h3]
      exact h d hd

/-- A successful createFromTemplate call cannot put a custom template
under a built-in id. -/
theorem createFromTemplate_preserves (st st2 : RegistryState)
    (templateId newId newName : String)
    (hok : createFromTemplate st templateId newId newName = Except.ok st2)
    (h : NoShadow st) : NoShadow st2 := by
  rw [createFromTemplate] at hok
  cases hg : getProjectType st templateId with
  | none =>
    rw [hg] at hok
    exact absurd hok (by simp)
  | some template =>
    rw [hg] at hok
    exact setProjectType_preserves st st2 newId _ hok h

/-- Every reachable registry state keeps built-in ids free of custom
templates. -/
theorem reachable_noShadow (st : RegistryState) (h : ReachableState st) :
    NoShadow st := by
  induction h with
  | init => intro d _; rfl
  | set st id config st2 _ hok ih =>
    exact setProjectType_preserves st st2 id config hok ih
  | del st id st2 _ hok ih =>
    exact deleteProjectType_preserves st st2 id hok ih
  | clone st templateId newId newName st2 _ hok ih =>
    exact createFromTemplate_preserves st st2 templateId newId newName hok ih

/-- Folding combinedStep over ids that all miss the cache leaves the
accumulator unchanged. -/
theorem foldl_combinedStep_id (calculations : List (String × CalculationResult))
    (adjustments : Adjustments) :
    ∀ (ids : List String), (∀ i ∈ ids, getCalculation calculations i = none) →
      ∀ acc, ids.foldl (combinedStep calculations adjustments) acc = acc := by
  intro ids
  induction ids with
  | nil => intro _ acc; rfl
  | cons i rest ih =>
    intro h acc
    rw [List.foldl_cons]
    have h1 : combinedStep calculations adjustments acc i = acc := by
      simp [combinedStep, h i (List.mem_cons_self i rest)]
    rw [h1]
    exact ih (fun j hj => h j (List.mem_cons_of_mem i hj)) acc

/-- C1: for every project-type schema and value bag, the calculation
result satisfies profit = revenue.annual - costs.annual exactly, and
monthlyProfit = profit / 12. -/
theorem profit_identity (pt : ProjectType) (bag : ValueBag) :
    (calculateProjectPL pt bag).profit =
        (calculateProjectPL pt bag).revenue.annual -
          (calculateProjectPL pt bag).costs.annual ∧
      (calculateProjectPL pt bag).monthlyProfit =
        (calculateProjectPL pt bag).profit / 12 :=
  ⟨rfl, rfl⟩

/-- C2: when investment <= 0, calculateROI returns roiPercentage 0 and
the never sentinel for paybackYears and breakEvenMonth regardless of
profit; when investment > 0 it returns profit/investment*100, with
ceil-based payback and break-even for positive profit and the sentinel
otherwise. -/
theorem roi_sentinel_law (investment annualProfit : ℚ) :
    (investment ≤ 0 → calculateROI investment annualProfit = ⟨none, 0, none⟩) ∧
    (0 < investment →
      calculateROI investment annualProfit =
        ⟨(if annualProfit > 0 then some ⌈investment / annualProfit⌉ else none),
          annualProfit / investment * 100,
          (if annualProfit > 0 then some ⌈investment / (annualProfit / 12)⌉
            else none)⟩) := by
  constructor
  · intro h
    rw [calculateROI, if_pos h]
  · intro h
    rw [calculateROI, if_neg (not_le.mpr h)]

/-- Witness for C2 at investment -5 (sentinel branch), and at
investment 100 with profits 30 and -3 (finite and never branches). -/
theorem roi_sentinel_law_witness :
    calculateROI (-5) 7 = ⟨none, 0, none⟩ ∧
    calculateROI 100 30 = ⟨some 4, 30, some 40⟩ ∧
    calculateROI 100 (-3) = ⟨none, -3, none⟩ := by
  refine ⟨(roi_sentinel_law (-5) 7).1 (by norm_num), ?_, ?_⟩
  · have h := (roi_sentinel_law 100 30).2 (by norm_num)
    rw [h]
    norm_num [ROIResult.mk.injEq, Int.ceil_eq_iff]
  · have h := (roi_sentinel_law 100 (-3)).2 (by norm_num)
    rw [h]
    norm_num [ROIResult.mk.injEq]

/-- C9: a present key holding a non-number resolves through parseFloat:
a string parsing to a nonzero value yields that value, while a string
parsing to 0 or NaN — and any boolean — is silently replaced by the
supplied default. -/
theorem getValue_string_fallback (bag : ValueBag) (key : String) (d : ℚ) :
    (∀ q : ℚ, lookupKey bag key = some (JSValue.str (some q)) → q ≠ 0 →
      getValue bag key d = q) ∧
    (lookupKey bag key = some (JSValue.str (some 0)) → getValue bag key d = d) ∧
    (lookupKey bag key = some (JSValue.str none) → getValue bag key d = d) ∧
    (∀ b : Bool, lookupKey bag key = some (JSValue.boolV b) →
      getValue bag key d = d) := by
  refine ⟨fun q hq hq0 => ?_, fun h => ?_, fun h => ?_, fun b hb => ?_⟩
  all_goals simp [getValue, *]

/-- Witness for C9: an explicit string "0" is replaced by the default 7,
a NaN-parsing string by the default 3, and a string parsing to 5 is
kept. -/
theorem getValue_string_fallback_witness :
    getValue [("x", JSValue.str (some 0))] "x" 7 = 7 ∧
    getValue [("y", JSValue.str none)] "y" 3 = 3 ∧
    getValue [("z", JSValue.str (some 5))] "z" 3 = 5 := by
  refine ⟨(getValue_string_fallback _ "x" 7).2.1 rfl,
    (getValue_string_fallback _ "y" 3).2.2.1 rfl,
    (getValue_string_fallback _ "z" 3).1 5 rfl (by norm_num)⟩

/-- C10: ids without a cached calculation are silently skipped by
calculateCombinedPL, and a list of only unknown ids yields empty
projects, zero totals, roi 0 and the infinite payback sentinel. -/
theorem combined_skips_unknown (calculations : List (String × CalculationResult))
    (ids : List String) (adjustments : Adjustments) (id : String) :
    (getCalculation calculations id = none →
      calculateCombinedPL calculations (id :: ids) adjustments =
        calculateCombinedPL calculations ids adjustments) ∧
    ((∀ i ∈ ids, getCalculation calculations i = none) →
      calculateCombinedPL calculations ids adjustments =
        ⟨[], ⟨0, 0, 0, 0, 0, none⟩⟩) := by
  constructor
  · intro h
    have hstep : combinedStep calculations adjustments ([], 0, 0, 0) id =
        ([], 0, 0, 0) := by
      simp [combinedStep, h]
    simp only [calculateCombinedPL, List.foldl_cons, hstep]
  · intro h
    simp only [calculateCombinedPL, foldl_combinedStep_id calculations adjustments ids h]
    norm_num [CombinedResult.mk.injEq, CombinedTotals.mk.injEq]

/-- Witness for C10: with an empty cache, two unknown ids produce the
empty combined result, and prepending another unknown id changes
nothing. -/
theorem combined_skips_unknown_witness :
    calculateCombinedPL [] ["ghost", "phantom"] ⟨none, none⟩ =
        ⟨[], ⟨0, 0, 0, 0, 0, none⟩⟩ ∧
      calculateCombinedPL [] ("spook" :: ["phantom"]) ⟨none, none⟩ =
        calculateCombinedPL [] ["phantom"] ⟨none, none⟩ := by
  refine ⟨(combined_skips_unknown [] ["ghost", "phantom"] ⟨none, none⟩ "x").2 ?_,
    (combined_skips_unknown [] ["phantom"] ⟨none, none⟩ "spook").1 rfl⟩
  intro i _
  rfl


/-- C3 counterexample: calling calculate on the padel schema with an
empty value bag yields annual revenue 0, because the bespoke padel
formula reads every field through hardcoded fallbacks; resolving the
same fields to their declared schema defaults, as the claim states,
would yield 141414. -/
theorem default_fallback_counterexample :
    (calculateProjectPL padelType []).revenue.annual = 0 ∧
    claimedPadelRevenue padelType [] = 141414 ∧ ((0 : ℚ) ≠ 141414) := by
  refine ⟨?_, ?_, by norm_num⟩
  · have h : (calculateProjectPL padelType []).revenue.annual =
        calculatePadelRevenue [] := rfl
    rw [h]
    norm_num [calculatePadelRevenue, getValue, lookupKey]
  · simp [claimedPadelRevenue, claimedGetValue, declaredDefault,
      findDeclaredField, padelType, lookupKey, List.find?]
    norm_num

/-- C3 amended: calculate with an empty value bag always succeeds (the
embedded engine is total); every field read through a schema-supplied
fallback resolves to its declared defaultValue (or 0) — the operating
cost sum, the generic revenue sum, the investment sum (whose courtCost
multiplication stays off without a truthy courts value) and the
staffing role sum (which equals the same computation performed on the
declared defaults) — but the bespoke per-business revenue formulas
resolve unset fields to their own hardcoded per-call fallbacks, so the
padel revenue on an empty bag is 0 rather than a schema-default
figure. -/
theorem default_fallback_amended :
    (∀ cfg : List FieldSpec, calculateOperatingCosts cfg [] =
      ((cfg.filter (fun f => f.ftype == "currency")).map
        (fun f => f.defaultValue)).sum) ∧
    (∀ cfg : List FieldSpec, calculateGenericRevenue cfg [] =
      ((cfg.filter (fun f => f.ftype == "currency" &&
          containsStr f.id.toLower "revenue")).map
        (fun f => f.defaultValue)).sum) ∧
    (∀ pt : ProjectType, calculateInvestment pt [] =
      ((pt.categories.investment.filter (fun f => f.ftype == "currency")).map
        (fun f => f.defaultValue)).sum) ∧
    (∀ cfg : List FieldSpec, calculateStaffingCosts cfg [] =
      staffingCostsFromDefaults cfg) ∧
    calculatePadelRevenue [] = 0 ∧
    (calculateProjectPL padelType []).revenue.annual = 0 := by
  refine ⟨fun cfg => ?_, fun cfg => ?_, fun pt => ?_, fun cfg => ?_, ?_, ?_⟩
  · rw [calculateOperatingCosts]
    simp only [getValue_nil]
    rw [foldl_if_sum, zero_add]
  · rw [calculateGenericRevenue]
    simp only [getValue_nil]
    rw [foldl_if_sum, zero_add]
  · rw [calculateInvestment]
    rw [foldl_investment_empty, zero_add]
  · have h : staffingStep [] = staffingStepDefaults := by
      funext roles f
      rfl
    rw [calculateStaffingCosts, staffingCostsFromDefaults, h]
  · norm_num [calculatePadelRevenue, getValue, lookupKey]
  · have h : (calculateProjectPL padelType []).revenue.annual =
        calculatePadelRevenue [] := rfl
    rw [h]
    norm_num [calculatePadelRevenue, getValue, lookupKey]

/-- C4: evaluation of importConfiguration at an invalid entry.  The
entry fails validation and is reported in the skip log, yet the
resulting registry state still contains it: the source replaces the
whole custom-template collection after its validation loop, whose
`continue` skips nothing. -/
theorem import_keeps_invalid_entries :
    validateProjectTypeConfig invalidImportCfg = false ∧
    importConfiguration [] [("bad", invalidImportCfg)] =
      ([("bad", invalidImportCfg)], ["bad"]) ∧
    lookupKey (importConfiguration [] [("bad", invalidImportCfg)]).1 "bad" =
      some invalidImportCfg := by
  refine ⟨rfl, ?_, rfl⟩
  simp [importConfiguration, invalidImportCfg, validateProjectTypeConfig, validStr]

/-- C5 counterexample: one importConfiguration call from a fresh
registry installs a (valid) user template under the built-in id "gym",
and getAllProjectTypes then maps "gym" to the user template instead of
the built-in schema. -/
theorem builtin_shadowing_counterexample :
    validateProjectTypeConfig shadowGymCfg = true ∧
    getAllProjectTypes (importConfiguration [] [("gym", shadowGymCfg)]).1 "gym" =
      some shadowGymCfg ∧
    shadowGymCfg ≠ gymType.toRaw := by
  refine ⟨rfl, ?_, ?_⟩
  · simp [getAllProjectTypes, importConfiguration, lookupKey]
  · intro h
    simp [shadowGymCfg, gymType, ProjectType.toRaw, RawConfig.mk.injEq] at h

/-- C5 amended: in every registry state reachable by setProjectType,
deleteProjectType and createFromTemplate calls (importConfiguration
excluded, since it installs arbitrary ids), getAllProjectTypes maps
each built-in id to its built-in schema. -/
theorem builtin_no_shadow_without_import (st : RegistryState)
    (h : ReachableState st) (id : String) (config : RawConfig)
    (hd : lookupKey defaultProjectTypes id = some config) :
    getAllProjectTypes st id = some config := by
  have h1 : lookupKey st id = none :=
    reachable_noShadow st h id (by simp [isDefaultId, hd])
  simp [getAllProjectTypes, h1, hd]

/-- Witness for the amended C5 at the initial (empty) registry and the
built-in id "gym". -/
theorem builtin_no_shadow_without_import_witness :
    getAllProjectTypes [] "gym" = some gymType.toRaw :=
  builtin_no_shadow_without_import [] ReachableState.init "gym" gymType.toRaw rfl

/-- C6: setProjectType with a built-in id fails with the reserved-id
error before validating or storing anything; no state is produced, so
the registry (the built-in schema under that id and the custom
templates) is untouched. -/
theorem reserved_id_rejection (st : RegistryState) (id : String)
    (config : RawConfig) (h : isDefaultId id = true) :
    setProjectType st id config = Except.error RegError.reservedId := by
  rw [setProjectType, if_pos h]

/-- Witness for C6: registering any schema under "gym" fails with the
reserved-id error. -/
theorem reserved_id_rejection_witness :
    setProjectType [("custom1", sampleCustomCfg)] "gym" sampleCustomCfg =
      Except.error RegError.reservedId :=
  reserved_id_rejection [("custom1", sampleCustomCfg)] "gym" sampleCustomCfg rfl

/-- C7: the CapEx first-year benefit is 0 whenever implementation plus
ramp-up reaches 12 months; below 12 it is
(costSavings + revenueIncrease) x ((12 - sum)/12) x rampFactor with
rampFactor 1/2 for a positive ramp-up period and 1 otherwise; at a sum
of 11 the proportion is exactly 1/12. -/
theorem capex_phase_boundary (bag : ValueBag) :
    (getValue bag "implementationTime" 6 + getValue bag "rampUpPeriod" 3 ≥ 12 →
      calculateCapExRevenue bag = 0) ∧
    (getValue bag "implementationTime" 6 + getValue bag "rampUpPeriod" 3 < 12 →
      calculateCapExRevenue bag =
        (getValue bag "costSavings" 0 + getValue bag "revenueIncrease" 0) *
          ((12 - (getValue bag "implementationTime" 6 +
            getValue bag "rampUpPeriod" 3)) / 12) *
          (if getValue bag "rampUpPeriod" 3 > 0 then 1 / 2 else 1)) ∧
    (getValue bag "implementationTime" 6 + getValue bag "rampUpPeriod" 3 = 11 →
      calculateCapExRevenue bag =
        (getValue bag "costSavings" 0 + getValue bag "revenueIncrease" 0) *
          (1 / 12) *
          (if getValue bag "rampUpPeriod" 3 > 0 then 1 / 2 else 1)) := by
  refine ⟨fun h => ?_, fun h => ?_, fun h => ?_⟩
  · simp only [calculateCapExRevenue]
    rw [if_pos h]
  · simp only [calculateCapExRevenue]
    rw [if_neg (not_le.mpr h)]
  · have h2 : ¬(getValue bag "implementationTime" 6 +
        getValue bag "rampUpPeriod" 3 ≥ 12) := by
      rw [h]; norm_num
    simp only [calculateCapExRevenue]
    rw [if_neg h2, h]
    norm_num

/-- Witness for C7: at 9 + 3 = 12 months the benefit is 0; at 8 + 3
(default ramp-up) = 11 months with savings 120 it is
120 x (1/12) x (1/2) = 5. -/
theorem capex_phase_boundary_witness :
    calculateCapExRevenue capexBagA = 0 ∧ calculateCapExRevenue capexBagB = 5 := by
  constructor
  · refine (capex_phase_boundary capexBagA).1 ?_
    simp [getValue, lookupKey, capexBagA]
    norm_num
  · have h := (capex_phase_boundary capexBagB).2.2
      (by simp [getValue, lookupKey, capexBagB]; norm_num)
    rw [h]
    simp [getValue, lookupKey, capexBagB]
    norm_num

/-- C8: with the gym ramp-up flag disabled the revenue is exactly the
membership tier sum, and with ramp-up enabled at rampDuration 0 the
loop reproduces the same un-ramped total. -/
theorem rampup_conservation (bag : ValueBag) :
    (gymRampEnabled bag = false → calculateGymRevenue bag = gymTiersTotal bag) ∧
    (gymRampEnabled bag = true → getValue bag "rampDuration" 0 = 0 →
      calculateGymRevenue bag = gymTiersTotal bag) := by
  constructor
  · intro h
    simp [calculateGymRevenue, h]
  · intro h h0
    simp only [calculateGymRevenue, h, if_true]
    rw [h0, gymAdjusted_rampDuration_zero]
    ring

/-- Witness for C8: an empty bag (flag off) gives the tier sum 0, and a
bag enabling ramp-up with duration 0 gives the exact tier sum
10 x 2 x 52 = 1040. -/
theorem rampup_conservation_witness :
    calculateGymRevenue [] = 0 ∧ calculateGymRevenue gymRampBag = 1040 := by
  constructor
  · have h := (rampup_conservation []).1 rfl
    rw [h]
    norm_num [gymTiersTotal, getValue, lookupKey]
  · have h := (rampup_conservation gymRampBag).2 rfl rfl
    rw [h]
    simp [gymTiersTotal, getValue, lookupKey, gymRampBag]
    norm_num
